import Mathlib

/-!
# libplayground: overlay session provisioner and the instance-creation handler

A shallow embedding of

* `provisioner/overlay.go`: `overlaySessionProvisioner.SessionNew` and
  `overlaySessionProvisioner.SessionClose`;
* `handlers/new_instance.go`: `NewInstance`.

The collaborators the code reaches through interfaces (`docker.FactoryApi`,
`docker.DockerApi`, the `core` of the handlers package) are parameters of the
embedding: records of reply functions over an arbitrary world state `σ`.  Every
collaborator call is recorded, with its arguments and its reply, in the order in
which the code makes it.
-/

namespace Libplayground

/-! ## Go values -/

/-- A Go `error` value, observed through `err.Error()`. -/
structure GoError where
  Error : String
  deriving DecidableEq, Repr

/-- The result of `fmt.Errorf(msg)` for a format string without verbs. -/
def fmtErrorf (msg : String) : GoError := ⟨msg⟩

/-- Search of `sub` in `s` at every position, on character lists. -/
def containsChars : List Char → List Char → Bool
  | [], sub => sub.isEmpty
  | c :: t, sub => sub.isPrefixOf (c :: t) || containsChars t sub

/-- Go `strings.Contains(s, substr)`. -/
def stringsContains (s substr : String) : Bool :=
  containsChars s.data substr.data

/-- The bytes of a Go string. A string the code computes by decoding
percent-escapes need not be valid UTF-8 text, so it is kept as bytes. -/
abbrev Bytes := List UInt8

/-- The byte of an ASCII character. -/
def byte (c : Char) : UInt8 := c.toNat.toUInt8

/-- The UTF-8 encoding of one character. -/
def utf8Char (c : Char) : Bytes :=
  let v := c.toNat
  if v < 0x80 then [v.toUInt8]
  else if v < 0x800 then [(0xC0 + v / 64).toUInt8, (0x80 + v % 64).toUInt8]
  else if v < 0x10000 then
    [(0xE0 + v / 4096).toUInt8, (0x80 + v / 64 % 64).toUInt8, (0x80 + v % 64).toUInt8]
  else
    [(0xF0 + v / 262144).toUInt8, (0x80 + v / 4096 % 64).toUInt8,
      (0x80 + v / 64 % 64).toUInt8, (0x80 + v % 64).toUInt8]

/-- The bytes of a list of characters in UTF-8. -/
def utf8Chars : List Char → Bytes
  | [] => []
  | c :: t => utf8Char c ++ utf8Chars t

/-- The bytes of a string: what Go holds for the text `s`. -/
def goBytes (s : String) : Bytes := utf8Chars s.data

/-- Go `strings.Split(s, ":")[0]`: the bytes before the first colon (all of `s`
when it has none). -/
def splitColonFirst (s : Bytes) : Bytes :=
  s.takeWhile (fun c => c != byte ':')

/-! ## Data model (`pwd/types`, `docker.io/go-docker/api/types`) -/

/-- The fields of `types.Session` that the embedded code reads or writes.
`Host` holds the bytes `SessionNew` stores. -/
structure Session where
  Id : String
  PlaygroundId : String
  Host : Bytes
  PwdIpAddress : String
  deriving DecidableEq, Repr

/-- The fields of `dtypes.NetworkCreate` that `SessionNew` sets; all the others
keep their zero value. -/
structure NetworkCreate where
  Driver : String
  Attachable : Bool
  deriving DecidableEq, Repr

/-- The `*url.URL` returned by `url.Parse`; `Host` is the one field read. -/
structure URL where
  Host : Bytes
  deriving DecidableEq, Repr

/-! ## Go `net/url`

`url.Parse` on the bytes of the daemon host. -/

/-- Go `strings.Cut(s, sep)` for a one-byte separator: the bytes before the
first `sep`, the bytes after it, and whether `sep` was found. -/
def cutByte (sep : UInt8) (s : Bytes) : Bytes × Bytes × Bool :=
  let before := s.takeWhile (fun c => c != sep)
  match s.dropWhile (fun c => c != sep) with
  | [] => (before, [], false)
  | _ :: after => (before, after, true)

/-- Go `strings.LastIndex(s, sep) >= 0` split: the bytes before the last `sep`
and the bytes from it on (`sep` included), or `none` when `s` has no `sep`. -/
def splitLast (sep : UInt8) (s : Bytes) : Option (Bytes × Bytes) :=
  match cutByte sep s.reverse with
  | (_, _, false) => none
  | (afterRev, beforeRev, true) => some (beforeRev.reverse, sep :: afterRev.reverse)

/-- `stringContainsCTLByte`. -/
def stringContainsCTLByte (s : Bytes) : Bool :=
  s.any (fun b => b.toNat < 32 || b.toNat == 127)

/-- An ASCII letter: `'a' <= c && c <= 'z' || 'A' <= c && c <= 'Z'`. -/
def isLetter (c : UInt8) : Bool :=
  (97 ≤ c.toNat && c.toNat ≤ 122) || (65 ≤ c.toNat && c.toNat ≤ 90)

/-- An ASCII digit: `'0' <= c && c <= '9'`. -/
def isDigit (c : UInt8) : Bool :=
  48 ≤ c.toNat && c.toNat ≤ 57

/-- The loop of `getScheme` from index `i` on: `none` is the error
"missing protocol scheme", otherwise the scheme and the rest. -/
def getSchemeFrom (rawURL : Bytes) : Nat → Bytes → Option (Bytes × Bytes)
  | _, [] => some ([], rawURL)
  | i, c :: t =>
    if isLetter c then getSchemeFrom rawURL (i + 1) t
    else if isDigit c || c == byte '+' || c == byte '-' || c == byte '.' then
      if i = 0 then some ([], rawURL) else getSchemeFrom rawURL (i + 1) t
    else if c == byte ':' then
      if i = 0 then none else some (rawURL.take i, t)
    else some ([], rawURL)

/-- `getScheme`. -/
def getScheme (rawURL : Bytes) : Option (Bytes × Bytes) :=
  getSchemeFrom rawURL 0 rawURL

/-- `ishex`. -/
def ishex (c : UInt8) : Bool :=
  isDigit c || (97 ≤ c.toNat && c.toNat ≤ 102) || (65 ≤ c.toNat && c.toNat ≤ 70)

/-- `unhex`. -/
def unhex (c : UInt8) : Nat :=
  if isDigit c then c.toNat - 48
  else if 97 ≤ c.toNat && c.toNat ≤ 102 then c.toNat - 97 + 10
  else if 65 ≤ c.toNat && c.toNat ≤ 70 then c.toNat - 65 + 10
  else 0

/-- `shouldEscape(c, encodeHost)`: every byte but the unreserved ones and the
ones a host may hold (the last two are the apostrophe and the double quote). -/
def shouldEscapeHost (c : UInt8) : Bool :=
  !(isLetter c || isDigit c || (goBytes "!$&()*+,;=:[]<>-_.~").contains c
    || c.toNat == 39 || c.toNat == 34)

/-- The modes of `unescape` that `url.Parse` uses: `encodeHost`, `encodeZone`,
and the ones for path, fragment and user info, which accept and decode alike. -/
inductive Encoding where
  | encodeHost
  | encodeZone
  | encodePath
  deriving DecidableEq, Repr

/-- `unescape(s, mode)`; `none` is an `EscapeError` or `InvalidHostError`. Each
escape decodes to one byte. -/
def unescape (mode : Encoding) : Bytes → Option Bytes
  | [] => some []
  | c :: rest =>
    if c == byte '%' then
      match rest with
      | h :: l :: t =>
        let v := unhex h * 16 + unhex l
        if !(ishex h && ishex l) then none
        else if mode = .encodeHost && unhex h < 8 && !(h == byte '2' && l == byte '5') then
          none
        else if mode = .encodeZone && !(h == byte '2' && l == byte '5') && v != 32
            && shouldEscapeHost v.toUInt8 then none
        else (unescape mode t).map (fun r => v.toUInt8 :: r)
      | _ => none
    else if (mode = .encodeHost || mode = .encodeZone) && c.toNat < 128
        && shouldEscapeHost c then none
    else (unescape mode rest).map (fun r => c :: r)

/-- `validOptionalPort`. -/
def validOptionalPort : Bytes → Bool
  | [] => true
  | c :: digits => c == byte ':' && digits.all (fun b => !(b.toNat < 48 || b.toNat > 57))

/-- The index of the first `%25` in `s`, for `strings.Index(s, "%25")`. -/
def indexZone : Bytes → Option Nat
  | [] => none
  | c :: t =>
    if [byte '%', byte '2', byte '5'].isPrefixOf (c :: t) then some 0
    else (indexZone t).map (fun i => i + 1)

/-- `parseHost`. -/
def parseHost (host : Bytes) : Option Bytes :=
  if [byte '['].isPrefixOf host then
    match splitLast (byte ']') host with
    | none => none
    | some (before, fromBracket) =>
      if !validOptionalPort (fromBracket.drop 1) then none
      else
        match indexZone before with
        | some zone =>
          match unescape .encodeHost (before.take zone),
              unescape .encodeZone (before.drop zone),
              unescape .encodeHost fromBracket with
          | some host1, some host2, some host3 => some (host1 ++ host2 ++ host3)
          | _, _, _ => none
        | none => unescape .encodeHost host
  else
    match splitLast (byte ':') host with
    | some (_, colonPort) =>
      if !validOptionalPort colonPort then none else unescape .encodeHost host
    | none => unescape .encodeHost host

/-- `validUserinfo`: every byte is an ASCII letter, a digit or one of the
listed marks (the last one is the apostrophe). -/
def validUserinfo (s : Bytes) : Bool :=
  s.all (fun r => isLetter r || isDigit r || (goBytes "-._:~!$&()*+,;=%@").contains r
    || r.toNat == 39)

/-- `parseAuthority`, for its host and whether it fails. -/
def parseAuthority (authority : Bytes) : Option Bytes :=
  match splitLast (byte '@') authority with
  | none => parseHost authority
  | some (userinfo, atHost) =>
    match parseHost (atHost.drop 1) with
    | none => none
    | some host =>
      if !validUserinfo userinfo then none
      else
        match cutByte (byte ':') userinfo with
        | (_, _, false) => (unescape .encodePath userinfo).map (fun _ => host)
        | (username, password, true) =>
          match unescape .encodePath username, unescape .encodePath password with
          | some _, some _ => some host
          | _, _ => none

/-- The unexported `parse(rawURL, false)`, for the host of its URL and whether
it fails. -/
def parse (rawURL : Bytes) : Option URL :=
  if stringContainsCTLByte rawURL then none
  else if rawURL = [byte '*'] then some ⟨[]⟩
  else
    match getScheme rawURL with
    | none => none
    | some (scheme, afterScheme) =>
      let rest := (cutByte (byte '?') afterScheme).1
      if ([byte '/'].isPrefixOf rest == false) && !scheme.isEmpty then some ⟨[]⟩
      else if ([byte '/'].isPrefixOf rest == false)
          && (cutByte (byte '/') rest).1.contains (byte ':') then none
      else if (!scheme.isEmpty || ([byte '/', byte '/', byte '/'].isPrefixOf rest == false))
          && [byte '/', byte '/'].isPrefixOf rest then
        let afterSlashes := rest.drop 2
        let authority := (cutByte (byte '/') afterSlashes).1
        let path := afterSlashes.drop authority.length
        match parseAuthority authority with
        | none => none
        | some host => (unescape .encodePath path).map (fun _ => ⟨host⟩)
      else (unescape .encodePath rest).map (fun _ => ⟨[]⟩)

/-- Go `url.Parse(rawURL)` with its error result dropped: the `*URL`, `none`
when it is nil. -/
def urlParse (rawURL : String) : Option URL :=
  let (u, frag, _) := cutByte (byte '#') (goBytes rawURL)
  match parse u with
  | none => none
  | some url => if frag.isEmpty then some url else (unescape .encodePath frag).map (fun _ => url)

/-! ## Collaborators -/

/-- Replies of a `docker.DockerApi` client over a world state `σ`. A method
with an `error` result replies `none` for `nil`. `ConnectNetwork` replies with
Go's pair `(ip, err)`. -/
structure DockerApi (σ : Type) where
  GetDaemonHost : σ → String
  CreateNetwork : String → NetworkCreate → σ → Option GoError × σ
  ConnectNetwork : String → String → String → σ → (String × Option GoError) × σ
  DisconnectNetwork : String → String → σ → Option GoError × σ
  DeleteNetwork : String → σ → Option GoError × σ

/-- Replies of the `docker.FactoryApi`: `GetForSession` yields a client or an
error. -/
structure FactoryApi (σ : Type) where
  GetForSession : Session → σ → Except GoError (DockerApi σ)

/-- One collaborator call with its arguments and its reply. -/
inductive Event where
  | GetForSession (s : Session) (err : Option GoError)
  | GetDaemonHost (host : String)
  | CreateNetwork (id : String) (opts : NetworkCreate) (err : Option GoError)
  | ConnectNetwork (container network ip : String) (assigned : String)
      (err : Option GoError)
  | DisconnectNetwork (container network : String) (err : Option GoError)
  | DeleteNetwork (id : String) (err : Option GoError)
  deriving DecidableEq, Repr

/-- Whether the call is a `CreateNetwork`. -/
def Event.isCreateNetwork : Event → Bool
  | .CreateNetwork _ _ _ => true
  | _ => false

/-- Whether the call is a `ConnectNetwork`. -/
def Event.isConnectNetwork : Event → Bool
  | .ConnectNetwork _ _ _ _ _ => true
  | _ => false

/-- Whether the call is a `DisconnectNetwork`. -/
def Event.isDisconnectNetwork : Event → Bool
  | .DisconnectNetwork _ _ _ => true
  | _ => false

/-- Whether the call is a `DeleteNetwork`. -/
def Event.isDeleteNetwork : Event → Bool
  | .DeleteNetwork _ _ => true
  | _ => false

/-- How a call of a provisioner method ends: it returns its `error` result, or
the goroutine panics on a nil pointer dereference. -/
inductive Outcome where
  | returned (err : Option GoError)
  | panicked
  deriving DecidableEq, Repr

/-- A finished call: how it ended, the session behind the pointer `s`
afterwards, the world afterwards, and the collaborator calls in order. -/
structure Run (σ : Type) where
  outcome : Outcome
  session : Session
  world : σ
  calls : List Event

/-! ## `provisioner/overlay.go` -/

/-- Lines 30-36 of `SessionNew`: the host recorded for a parsed daemon URL. -/
def resolveHost (u : URL) : Bytes :=
  if u.Host = [] then goBytes "localhost" else splitColonFirst u.Host

/-- `overlaySessionProvisioner.SessionNew`. `parse` is `url.Parse` with its
error result dropped (`none` is the nil `*URL` of a failed parse) and
`L2ContainerName` is `config.L2ContainerName`. -/
def SessionNew {σ : Type} (parse : String → Option URL) (L2ContainerName : String)
    (dockerFactory : FactoryApi σ) (s : Session) (w : σ) : Run σ :=
  match dockerFactory.GetForSession s w with
  | .error err =>
    -- We assume we are out of capacity
    ⟨.returned (some (fmtErrorf "Out of capacity")), s, w,
      [.GetForSession s (some err)]⟩
  | .ok dockerClient =>
    let host := dockerClient.GetDaemonHost w
    let t₀ : List Event := [.GetForSession s none, .GetDaemonHost host]
    match parse host with
    | none => ⟨.panicked, s, w, t₀⟩
    | some u =>
      let s₁ : Session := { s with Host := resolveHost u }
      let opts : NetworkCreate := { Driver := "overlay", Attachable := true }
      match dockerClient.CreateNetwork s₁.Id opts w with
      | (some err, w₁) =>
        ⟨.returned (some err), s₁, w₁, t₀ ++ [.CreateNetwork s₁.Id opts (some err)]⟩
      | (none, w₁) =>
        let t₁ := t₀ ++ [.CreateNetwork s₁.Id opts none]
        match dockerClient.ConnectNetwork L2ContainerName s₁.Id s₁.PwdIpAddress w₁ with
        | ((ip, some err), w₂) =>
          ⟨.returned (some err), s₁, w₂,
            t₁ ++ [.ConnectNetwork L2ContainerName s₁.Id s₁.PwdIpAddress ip (some err)]⟩
        | ((ip, none), w₂) =>
          ⟨.returned none, { s₁ with PwdIpAddress := ip }, w₂,
            t₁ ++ [.ConnectNetwork L2ContainerName s₁.Id s₁.PwdIpAddress ip none]⟩

/-- Lines 67-75 of `SessionClose`: delete the network, a "not found" error
counting as success. `t₁` holds the calls made so far. -/
def deleteSessionNetwork {σ : Type} (dockerClient : DockerApi σ) (s : Session) (w₁ : σ)
    (t₁ : List Event) : Run σ :=
  match dockerClient.DeleteNetwork s.Id w₁ with
  | (some err, w₂) =>
    if !stringsContains err.Error "not found" then
      ⟨.returned (some err), s, w₂, t₁ ++ [.DeleteNetwork s.Id (some err)]⟩
    else ⟨.returned none, s, w₂, t₁ ++ [.DeleteNetwork s.Id (some err)]⟩
  | (none, w₂) => ⟨.returned none, s, w₂, t₁ ++ [.DeleteNetwork s.Id none]⟩

/-- `overlaySessionProvisioner.SessionClose`. -/
def SessionClose {σ : Type} (L2ContainerName : String)
    (dockerFactory : FactoryApi σ) (s : Session) (w : σ) : Run σ :=
  -- Disconnect L2 router from the network
  match dockerFactory.GetForSession s w with
  | .error err => ⟨.returned (some err), s, w, [.GetForSession s (some err)]⟩
  | .ok dockerClient =>
    match dockerClient.DisconnectNetwork L2ContainerName s.Id w with
    | (some err, w₁) =>
      let t₁ : List Event :=
        [.GetForSession s none, .DisconnectNetwork L2ContainerName s.Id (some err)]
      if !stringsContains err.Error "is not connected to the network" then
        ⟨.returned (some err), s, w₁, t₁⟩
      else deleteSessionNetwork dockerClient s w₁ t₁
    | (none, w₁) =>
      deleteSessionNetwork dockerClient s w₁
        [.GetForSession s none, .DisconnectNetwork L2ContainerName s.Id none]

/-- Two calls of `SessionClose` in sequence on the same session: the second
call runs in the world the first one left. -/
def closeTwice {σ : Type} (L2ContainerName : String)
    (dockerFactory : FactoryApi σ) (s : Session) (w : σ) : Run σ × Run σ :=
  let r₁ := SessionClose L2ContainerName dockerFactory s w
  (r₁, SessionClose L2ContainerName dockerFactory r₁.session r₁.world)

/-! ## `handlers/new_instance.go` -/

/-- The fields of `types.Playground` named in the sources. -/
structure Playground where
  Id : String
  DefaultDinDInstanceImage : String
  AllowWindowsInstances : Bool
  deriving DecidableEq, Repr

/-- The body of an instance-creation request, `types.InstanceConfig`. -/
structure InstanceConfig where
  PlaygroundFQDN : String
  ImageName : String
  Hostname : String
  «Type» : String
  deriving DecidableEq, Repr

/-- A created instance, `types.Instance`. -/
structure Instance where
  Name : String
  Hostname : String
  IP : String
  RoutableIP : String
  Image : String
  SessionId : String
  SessionHost : String
  ProxyHost : String
  deriving DecidableEq, Repr

/-- What the handler reads of the `*http.Request`: the `sessionId` route
variable, `req.Host` and the bytes of `req.Body`. -/
structure Request where
  sessionId : String
  Host : String
  Body : String
  deriving DecidableEq, Repr

/-- The `core` of the handlers package (`pwd.PWDApi`): its replies. `SessionGet`
replies with a `*types.Session`, `none` being the nil pointer it gives for a
session id it does not know. An `InstanceNew` reply is Go's pair
`(*types.Instance, error)`. -/
structure Core where
  SessionGet : String → Option Session
  PlaygroundGet : String → Option Playground
  InstanceNew : Session → InstanceConfig → Option Instance × Option GoError

/-- What `NewInstance` uses besides `core`: the two error classifiers
`pwd.SessionComplete` and `provisioner.OutOfCapacity`, and `encoding/json`
(`jsonDecode raw body` is `body` after `Decode(&body)`, whose error is dropped;
`jsonMarshal` is the text `Encode` writes before its line feed). -/
structure Handlers where
  core : Core
  SessionComplete : GoError → Bool
  OutOfCapacity : GoError → Bool
  jsonDecode : String → InstanceConfig → InstanceConfig
  jsonMarshal : Option Instance → String

/-- One call on `core`, with its arguments and its reply. -/
inductive CoreCall where
  | SessionGet (sessionId : String) (s : Option Session)
  | PlaygroundGet (playgroundId : String) (playground : Option Playground)
  | InstanceNew (s : Session) (conf : InstanceConfig) (i : Option Instance)
      (err : Option GoError)
  deriving DecidableEq, Repr

/-- One call on the `http.ResponseWriter`. -/
inductive RwOp where
  | WriteHeader (code : Nat)
  | Write (data : String)
  deriving DecidableEq, Repr

def StatusOK : Nat := 200
def StatusBadRequest : Nat := 400
def StatusUnauthorized : Nat := 401
def StatusConflict : Nat := 409
def StatusInternalServerError : Nat := 500
def StatusServiceUnavailable : Nat := 503

/-- The status line `net/http` sends for a sequence of calls on the response
writer: the code of a leading `WriteHeader`, and 200 when the handler writes
first or writes nothing. -/
def statusOf : List RwOp → Nat
  | .WriteHeader code :: _ => code
  | _ => StatusOK

/-- The body: the data of the `Write` calls, in order. -/
def bodyOf : List RwOp → String
  | [] => ""
  | .WriteHeader _ :: ops => bodyOf ops
  | .Write data :: ops => data ++ bodyOf ops

/-- The explicit `WriteHeader` calls, in order. -/
def headersOf : List RwOp → List Nat
  | [] => []
  | .WriteHeader code :: ops => code :: headersOf ops
  | .Write _ :: ops => headersOf ops

/-- A handled request: the calls on the response writer and on `core`, and
whether the handler panicked on a nil pointer dereference instead of
returning. -/
structure Response where
  rw : List RwOp
  calls : List CoreCall
  panicked : Bool
  deriving DecidableEq, Repr

/-- The status the client receives: `net/http` recovers a handler's panic and
closes the connection, so a handler that panics before it wrote anything sends no
status at all. -/
def statusSent (r : Response) : Option Nat :=
  if r.panicked && r.rw.isEmpty then none else some (statusOf r.rw)

/-- The handler `NewInstance`. -/
def NewInstance (h : Handlers) (req : Request) : Response :=
  let sessionId := req.sessionId
  let body := h.jsonDecode req.Body
    { PlaygroundFQDN := req.Host, ImageName := "", Hostname := "", «Type» := "" }
  match h.core.SessionGet sessionId with
  | none =>
    -- `s.PlaygroundId` on the nil `s`
    ⟨[], [.SessionGet sessionId none], true⟩
  | some s =>
    let t₀ : List CoreCall := [.SessionGet sessionId (some s),
      .PlaygroundGet s.PlaygroundId (h.core.PlaygroundGet s.PlaygroundId)]
    match h.core.PlaygroundGet s.PlaygroundId with
    | none => ⟨[.WriteHeader StatusBadRequest], t₀, false⟩
    | some playground =>
      if body.«Type» = "windows" ∧ playground.AllowWindowsInstances = false then
        ⟨[.WriteHeader StatusUnauthorized], t₀, false⟩
      else
        match h.core.InstanceNew s body with
        | (i, some err) =>
          let t₁ := t₀ ++ [.InstanceNew s body i (some err)]
          if h.SessionComplete err then ⟨[.WriteHeader StatusConflict], t₁, false⟩
          else if h.OutOfCapacity err then
            ⟨[.WriteHeader StatusServiceUnavailable,
              .Write "\x7b\"error\": \"out_of_capacity\"\x7d\n"], t₁, false⟩
          else ⟨[.WriteHeader StatusInternalServerError], t₁, false⟩
        | (i, none) =>
          ⟨[.Write (h.jsonMarshal i ++ "\n")], t₀ ++ [.InstanceNew s body i none], false⟩

/-! ## The tolerated teardown conditions -/

/-- The "already disconnected" tolerance on a `DisconnectNetwork` reply: nil, or
an error whose message contains "is not connected to the network". -/
def toleratedDisconnect : Option GoError → Bool
  | none => true
  | some e => stringsContains e.Error "is not connected to the network"

/-- The "not found" tolerance on a `DeleteNetwork` reply: nil, or an error whose
message contains "not found". -/
def toleratedDelete : Option GoError → Bool
  | none => true
  | some e => stringsContains e.Error "not found"

/-- Modelled from the spec: the container runtime behind `docker.DockerApi`,
which is not among the sources. A network is known by its name and holds the
containers attached to it (`none`: no such network). Disconnecting a container
that is not attached reports the "already disconnected" condition; deleting a
network that does not exist reports the "not found" condition; a network with an
attached endpoint cannot be deleted. -/
structure Daemon where
  endpoints : String → Option (List String)

/-- Modelled from the spec: the client of a `Daemon`. `disconnectMissing` is
the error `DisconnectNetwork` reports when the network itself no longer
exists. -/
def daemonDocker (disconnectMissing : String → String → GoError) : DockerApi Daemon where
  GetDaemonHost := fun _ => "localhost"
  CreateNetwork := fun id _ d =>
    match d.endpoints id with
    | some _ => (some ⟨"network with name " ++ id ++ " already exists"⟩, d)
    | none => (none, ⟨Function.update d.endpoints id (some [])⟩)
  ConnectNetwork := fun container network ip d =>
    match d.endpoints network with
    | none => (("", some ⟨"network " ++ network ++ " not found"⟩), d)
    | some eps => ((ip, none), ⟨Function.update d.endpoints network (some (container :: eps))⟩)
  DisconnectNetwork := fun container network d =>
    match d.endpoints network with
    | none => (some (disconnectMissing container network), d)
    | some eps =>
      if container ∈ eps then
        (none, ⟨Function.update d.endpoints network (some (eps.filter (fun c => c != container)))⟩)
      else
        (some ⟨"container " ++ container ++ " is not connected to the network " ++ network⟩, d)
  DeleteNetwork := fun id d =>
    match d.endpoints id with
    | none => (some ⟨"network " ++ id ++ " not found"⟩, d)
    | some [] => (none, ⟨Function.update d.endpoints id none⟩)
    | some (_ :: _) => (some ⟨"network " ++ id ++ " has active endpoints"⟩, d)

/-- Modelled from the spec: the factory of a `Daemon`; every session gets the
same client. -/
def daemonFactory (disconnectMissing : String → String → GoError) : FactoryApi Daemon where
  GetForSession := fun _ _ => .ok (daemonDocker disconnectMissing)

/-- A missing network reported by `DisconnectNetwork` as the "already
disconnected" condition. -/
def reportNotConnected (container network : String) : GoError :=
  ⟨"container " ++ container ++ " is not connected to the network " ++ network⟩

/-- A missing network reported by `DisconnectNetwork` as the "not found"
condition. -/
def reportNotFound (_container network : String) : GoError :=
  ⟨"network " ++ network ++ " not found"⟩

/-- A daemon holding the network of `testSession` with the L2 container "l2"
attached. -/
def testDaemon : Daemon :=
  ⟨fun id => if id = "aaaabbbbcccc" then some ["l2"] else none⟩

/-! ## Scripted collaborators

Fixed replies, as the `docker.Mock` and `docker.FactoryMock` of the tests give. -/

/-- A client whose every method has one fixed reply. -/
def mockDocker (host : String) (create : Option GoError) (connect : String × Option GoError)
    (disconnect delete : Option GoError) : DockerApi Unit where
  GetDaemonHost := fun _ => host
  CreateNetwork := fun _ _ w => (create, w)
  ConnectNetwork := fun _ _ _ w => (connect, w)
  DisconnectNetwork := fun _ _ w => (disconnect, w)
  DeleteNetwork := fun _ w => (delete, w)

/-- A factory that yields the client `d` for every session. -/
def mockFactory (d : DockerApi Unit) : FactoryApi Unit where
  GetForSession := fun _ _ => .ok d

/-- A factory that fails with `e` for every session. -/
def failingFactory (e : GoError) : FactoryApi Unit where
  GetForSession := fun _ _ => .error e

/-- The session of `TestInstanceNew` as the provisioner receives it. -/
def testSession : Session :=
  { Id := "aaaabbbbcccc", PlaygroundId := "foobar", Host := [], PwdIpAddress := "" }

/-- The playground of `TestInstanceNew`, with its windows policy flag. -/
def testPlayground (allowWindows : Bool) : Playground :=
  { Id := "foobar", DefaultDinDInstanceImage := "franela/dind",
    AllowWindowsInstances := allowWindows }

/-- The instance `TestInstanceNew` expects, but for its proxy host. -/
def testInstance : Instance :=
  { Name := "aaaabbbb_aaaabbbbcccc", Hostname := "node1", IP := "10.0.0.1",
    RoutableIP := "10.0.0.1", Image := "franela/dind", SessionId := "aaaabbbbcccc",
    SessionHost := "localhost", ProxyHost := "ip10-0-0-1-aaaabbbbcccc" }

/-- A core with one session and one playground, whose `InstanceNew` has one
fixed reply. -/
def mockCore (allowWindows : Bool) (reply : Option Instance × Option GoError) : Core where
  SessionGet := fun id => if id = "aaaabbbbcccc" then some testSession else none
  PlaygroundGet := fun id => if id = "foobar" then some (testPlayground allowWindows) else none
  InstanceNew := fun _ _ => reply

/-- Handlers over `mockCore`: the classifiers tell the errors apart by their
message, the decoder reads the request body as the instance type, and every
instance is marshalled as its name. -/
def mockHandlers (allowWindows : Bool) (reply : Option Instance × Option GoError) :
    Handlers where
  core := mockCore allowWindows reply
  SessionComplete := fun e => e.Error == "session is complete"
  OutOfCapacity := fun e => e.Error == "OutOfCapacity"
  jsonDecode := fun raw body => { body with «Type» := raw }
  jsonMarshal := fun i => (i.map (fun x => x.Name)).getD "null"

/-- A request on the test session whose body asks for the instance type
`instanceType`. -/
def testRequest (instanceType : String) : Request :=
  { sessionId := "aaaabbbbcccc", Host := "something.play-with-docker.com",
    Body := instanceType }

/-- A request on a session id the core does not know. -/
def unknownSessionRequest : Request :=
  { sessionId := "ffffffffffff", Host := "something.play-with-docker.com", Body := "" }

/-! ## `SessionNew` -/

/-- C3: when `GetForSession` fails, whatever its error, `SessionNew` returns the
error "Out of capacity", makes no other collaborator call (so neither
`CreateNetwork` nor `ConnectNetwork`), and the session keeps its `Host` and its
`PwdIpAddress`. -/
theorem SessionNew_out_of_capacity {σ : Type} (parse : String → Option URL)
    (L2ContainerName : String) (f : FactoryApi σ) (s : Session) (w : σ) (e : GoError)
    (hget : f.GetForSession s w = .error e) :
    (SessionNew parse L2ContainerName f s w).outcome
        = .returned (some ⟨"Out of capacity"⟩) ∧
      (∀ ev ∈ (SessionNew parse L2ContainerName f s w).calls,
        ev.isCreateNetwork = false ∧ ev.isConnectNetwork = false) ∧
      (SessionNew parse L2ContainerName f s w).session.Host = s.Host ∧
      (SessionNew parse L2ContainerName f s w).session.PwdIpAddress = s.PwdIpAddress := by
  simp [SessionNew, hget, fmtErrorf, Event.isCreateNetwork, Event.isConnectNetwork]

/-- A factory without a docker host: `SessionNew` answers "Out of capacity". -/
theorem SessionNew_out_of_capacity_witness :
    (SessionNew urlParse "l2" (failingFactory ⟨"no docker host"⟩) testSession ()).outcome
      = .returned (some ⟨"Out of capacity"⟩) :=
  (SessionNew_out_of_capacity urlParse "l2" (failingFactory ⟨"no docker host"⟩)
    testSession () ⟨"no docker host"⟩ rfl).1

/-- The run of `SessionNew` when `GetForSession`, `CreateNetwork` and
`ConnectNetwork` reply success and the daemon host parses: it returns nil after
exactly these calls, and the session's `PwdIpAddress` is the address
`ConnectNetwork` returned. -/
theorem SessionNew_success_of_parsed {σ : Type} (parse : String → Option URL)
    (L2ContainerName : String) (f : FactoryApi σ) (s : Session) (w w₁ w₂ : σ)
    (d : DockerApi σ) (u : URL) (ip : String)
    (hget : f.GetForSession s w = .ok d)
    (hparse : parse (d.GetDaemonHost w) = some u)
    (hcreate : d.CreateNetwork s.Id ⟨"overlay", true⟩ w = (none, w₁))
    (hconnect : d.ConnectNetwork L2ContainerName s.Id s.PwdIpAddress w₁ = ((ip, none), w₂)) :
    (SessionNew parse L2ContainerName f s w).outcome = .returned none ∧
      (SessionNew parse L2ContainerName f s w).calls
        = [.GetForSession s none, .GetDaemonHost (d.GetDaemonHost w),
           .CreateNetwork s.Id ⟨"overlay", true⟩ none,
           .ConnectNetwork L2ContainerName s.Id s.PwdIpAddress ip none] ∧
      (SessionNew parse L2ContainerName f s w).session.PwdIpAddress = ip := by
  simp [SessionNew, hget, hparse, hcreate, hconnect]

/-- C4: with `GetForSession`, `CreateNetwork` and `ConnectNetwork` all replying
success, on the daemon host "192.168.0.1:2375" `SessionNew` does not return nil:
`url.Parse` rejects that host, the nil URL is dereferenced and `SessionNew`
panics without calling `CreateNetwork` or `ConnectNetwork` and without recording
the address. -/
theorem SessionNew_success_replies_abort :
    (SessionNew urlParse "l2"
        (mockFactory (mockDocker "192.168.0.1:2375" none ("10.0.0.1", none) none none))
        testSession ()).outcome = .panicked ∧
      (SessionNew urlParse "l2"
        (mockFactory (mockDocker "192.168.0.1:2375" none ("10.0.0.1", none) none none))
        testSession ()).calls
        = [.GetForSession testSession none, .GetDaemonHost "192.168.0.1:2375"] ∧
      (SessionNew urlParse "l2"
        (mockFactory (mockDocker "192.168.0.1:2375" none ("10.0.0.1", none) none none))
        testSession ()).session.PwdIpAddress = "" := by
  decide

/-- C10: in a run of `SessionNew` in which `GetForSession` succeeds: if
`CreateNetwork` is called and fails, `SessionNew` returns that error and never
calls `ConnectNetwork`; if `CreateNetwork` succeeds and `ConnectNetwork` is called
and fails, `SessionNew` returns that error; in both cases neither
`DisconnectNetwork` nor `DeleteNetwork` is called and the session keeps its
`PwdIpAddress`. -/
theorem SessionNew_failure_no_rollback {σ : Type} (parse : String → Option URL)
    (L2ContainerName : String) (f : FactoryApi σ) (s : Session) (w : σ)
    (hget : Event.GetForSession s none ∈ (SessionNew parse L2ContainerName f s w).calls) :
    (∀ name opts e, Event.CreateNetwork name opts (some e)
        ∈ (SessionNew parse L2ContainerName f s w).calls →
      (SessionNew parse L2ContainerName f s w).outcome = .returned (some e) ∧
      (∀ ev ∈ (SessionNew parse L2ContainerName f s w).calls,
        ev.isConnectNetwork = false ∧ ev.isDisconnectNetwork = false
          ∧ ev.isDeleteNetwork = false) ∧
      (SessionNew parse L2ContainerName f s w).session.PwdIpAddress = s.PwdIpAddress) ∧
    (∀ name opts container network requested ip e,
      Event.CreateNetwork name opts none
        ∈ (SessionNew parse L2ContainerName f s w).calls →
      Event.ConnectNetwork container network requested ip (some e)
        ∈ (SessionNew parse L2ContainerName f s w).calls →
      (SessionNew parse L2ContainerName f s w).outcome = .returned (some e) ∧
      (∀ ev ∈ (SessionNew parse L2ContainerName f s w).calls,
        ev.isDisconnectNetwork = false ∧ ev.isDeleteNetwork = false) ∧
      (SessionNew parse L2ContainerName f s w).session.PwdIpAddress = s.PwdIpAddress) := by
  unfold SessionNew at *
  cases hg : f.GetForSession s w with
  | error e => simp [hg] at hget
  | ok d =>
    cases hp : parse (d.GetDaemonHost w) with
    | none => simp [hg, hp]
    | some u =>
      rcases hc : d.CreateNetwork s.Id ⟨"overlay", true⟩ w with ⟨_ | ce, w₁⟩
      · rcases hn : d.ConnectNetwork L2ContainerName s.Id s.PwdIpAddress w₁
          with ⟨⟨ip', _ | ne⟩, w₂⟩
        · simp [hg, hp, hc, hn]
        · simp [hg, hp, hc, hn, Event.isDisconnectNetwork, Event.isDeleteNetwork]
          intros
          simp_all
      · simp [hg, hp, hc, Event.isConnectNetwork, Event.isDisconnectNetwork,
          Event.isDeleteNetwork]
        intros
        simp_all

/-- A failing `CreateNetwork` and a failing `ConnectNetwork`: each error comes back
as it is. -/
theorem SessionNew_failure_no_rollback_witness :
    (SessionNew urlParse "l2"
        (mockFactory (mockDocker "localhost" (some ⟨"pool overlaps"⟩) ("", none) none none))
        testSession ()).outcome = .returned (some ⟨"pool overlaps"⟩) ∧
      (SessionNew urlParse "l2"
        (mockFactory (mockDocker "localhost" none ("", some ⟨"no such container"⟩) none none))
        testSession ()).outcome = .returned (some ⟨"no such container"⟩) :=
  ⟨((SessionNew_failure_no_rollback urlParse "l2"
      (mockFactory (mockDocker "localhost" (some ⟨"pool overlaps"⟩) ("", none) none none))
      testSession () (by decide)).1 "aaaabbbbcccc" ⟨"overlay", true⟩ ⟨"pool overlaps"⟩
      (by decide)).1,
   ((SessionNew_failure_no_rollback urlParse "l2"
      (mockFactory (mockDocker "localhost" none ("", some ⟨"no such container"⟩) none none))
      testSession () (by decide)).2 "aaaabbbbcccc" ⟨"overlay", true⟩ "l2" "aaaabbbbcccc" ""
      "" ⟨"no such container"⟩ (by decide) (by decide)).1⟩

/-- The host `SessionNew` records once the daemon host has parsed: "localhost"
for an empty host part, otherwise the host part up to its first colon. -/
theorem SessionNew_host {σ : Type} (parse : String → Option URL)
    (L2ContainerName : String) (f : FactoryApi σ) (s : Session) (w : σ)
    (d : DockerApi σ) (u : URL) (hget : f.GetForSession s w = .ok d)
    (hparse : parse (d.GetDaemonHost w) = some u) :
    (SessionNew parse L2ContainerName f s w).session.Host
      = if u.Host = [] then goBytes "localhost" else splitColonFirst u.Host := by
  unfold SessionNew
  rcases hc : d.CreateNetwork s.Id ⟨"overlay", true⟩ w with ⟨_ | ce, w₁⟩
  · rcases hn : d.ConnectNetwork L2ContainerName s.Id s.PwdIpAddress w₁
      with ⟨⟨ip', _ | ne⟩, w₂⟩ <;> simp [hget, hparse, hc, hn, resolveHost]
  · simp [hget, hparse, hc, resolveHost]

/-- `SessionNew` aborts whenever `url.Parse` rejects the daemon host: the nil
`*URL` is dereferenced before any network call. -/
theorem SessionNew_panics {σ : Type} (parse : String → Option URL)
    (L2ContainerName : String) (f : FactoryApi σ) (s : Session) (w : σ)
    (d : DockerApi σ) (hget : f.GetForSession s w = .ok d)
    (hparse : parse (d.GetDaemonHost w) = none) :
    (SessionNew parse L2ContainerName f s w).outcome = .panicked ∧
      (SessionNew parse L2ContainerName f s w).calls
        = [.GetForSession s none, .GetDaemonHost (d.GetDaemonHost w)] := by
  simp [SessionNew, hget, hparse]

/-- C5: on the daemon host ":2375" `url.Parse` fails ("missing protocol
scheme") and returns a nil URL; `SessionNew` dereferences it and panics, with
the session's `Host` not set and no network created. On the daemon host
"localhost" of the tests it records the host "localhost". -/
theorem SessionNew_daemon_host_abort :
    (SessionNew urlParse "l2"
        (mockFactory (mockDocker ":2375" none ("10.0.0.1", none) none none))
        testSession ()).outcome = .panicked ∧
      (SessionNew urlParse "l2"
        (mockFactory (mockDocker ":2375" none ("10.0.0.1", none) none none))
        testSession ()).calls = [.GetForSession testSession none, .GetDaemonHost ":2375"] ∧
      (SessionNew urlParse "l2"
        (mockFactory (mockDocker "localhost" none ("10.0.0.1", none) none none))
        testSession ()).session.Host = goBytes "localhost" := by
  decide

/-! ## `SessionClose` -/

/-- The result of `SessionClose` for a client `d` that `GetForSession` yields. -/
theorem SessionClose_with_client {σ : Type} (L2ContainerName : String) (f : FactoryApi σ)
    (s : Session) (w : σ) (d : DockerApi σ) (hg : f.GetForSession s w = .ok d) :
    ((SessionClose L2ContainerName f s w).outcome = .returned none ↔
        toleratedDisconnect (d.DisconnectNetwork L2ContainerName s.Id w).1 = true ∧
        toleratedDelete
          (d.DeleteNetwork s.Id (d.DisconnectNetwork L2ContainerName s.Id w).2).1 = true) ∧
    (∀ e, (d.DisconnectNetwork L2ContainerName s.Id w).1 = some e →
      stringsContains e.Error "is not connected to the network" = false →
      (SessionClose L2ContainerName f s w).outcome = .returned (some e)) ∧
    (∀ e, toleratedDisconnect (d.DisconnectNetwork L2ContainerName s.Id w).1 = true →
      (d.DeleteNetwork s.Id (d.DisconnectNetwork L2ContainerName s.Id w).2).1 = some e →
      stringsContains e.Error "not found" = false →
      (SessionClose L2ContainerName f s w).outcome = .returned (some e)) := by
  unfold SessionClose
  rcases hd : d.DisconnectNetwork L2ContainerName s.Id w with ⟨_ | de, w₁⟩
  · rcases hr : d.DeleteNetwork s.Id w₁ with ⟨_ | re, w₂⟩
    · simp [hg, hd, hr, deleteSessionNetwork, toleratedDisconnect, toleratedDelete]
    · by_cases ht : stringsContains re.Error "not found" = true <;>
        simp [hg, hd, hr, deleteSessionNetwork, toleratedDisconnect, toleratedDelete, ht]
  · by_cases hc : stringsContains de.Error "is not connected to the network" = true
    · rcases hr : d.DeleteNetwork s.Id w₁ with ⟨_ | re, w₂⟩
      · simp [hg, hd, hr, hc, deleteSessionNetwork, toleratedDisconnect, toleratedDelete]
      · by_cases ht : stringsContains re.Error "not found" = true <;>
          simp [hg, hd, hr, hc, deleteSessionNetwork, toleratedDisconnect, toleratedDelete, ht]
    · simp [hg, hd, hc, toleratedDisconnect]

/-- C6: `SessionClose` returns nil exactly when `GetForSession` succeeds, the
`DisconnectNetwork` reply is nil or an "is not connected to the network" error,
and the `DeleteNetwork` reply is nil or a "not found" error; otherwise it returns
the first collaborator error that is not tolerated, as it received it. -/
theorem SessionClose_result {σ : Type} (L2ContainerName : String) (f : FactoryApi σ)
    (s : Session) (w : σ) :
    ((SessionClose L2ContainerName f s w).outcome = .returned none ↔
      ∃ d, f.GetForSession s w = .ok d ∧
        toleratedDisconnect (d.DisconnectNetwork L2ContainerName s.Id w).1 = true ∧
        toleratedDelete
          (d.DeleteNetwork s.Id (d.DisconnectNetwork L2ContainerName s.Id w).2).1 = true) ∧
    (∀ e, f.GetForSession s w = .error e →
      (SessionClose L2ContainerName f s w).outcome = .returned (some e)) ∧
    (∀ d e, f.GetForSession s w = .ok d →
      (d.DisconnectNetwork L2ContainerName s.Id w).1 = some e →
      stringsContains e.Error "is not connected to the network" = false →
      (SessionClose L2ContainerName f s w).outcome = .returned (some e)) ∧
    (∀ d e, f.GetForSession s w = .ok d →
      toleratedDisconnect (d.DisconnectNetwork L2ContainerName s.Id w).1 = true →
      (d.DeleteNetwork s.Id (d.DisconnectNetwork L2ContainerName s.Id w).2).1 = some e →
      stringsContains e.Error "not found" = false →
      (SessionClose L2ContainerName f s w).outcome = .returned (some e)) := by
  refine ⟨?_, ?_, ?_, ?_⟩
  · cases hg : f.GetForSession s w with
    | error e => simp [SessionClose, hg]
    | ok d =>
      rw [(SessionClose_with_client L2ContainerName f s w d hg).1]
      constructor
      · intro h
        exact ⟨d, rfl, h⟩
      · rintro ⟨d', hd', h⟩
        cases hd'
        exact h
  · intro e hg
    simp [SessionClose, hg]
  · intro d e hg
    exact (SessionClose_with_client L2ContainerName f s w d hg).2.1 e
  · intro d e hg
    exact (SessionClose_with_client L2ContainerName f s w d hg).2.2 e

/-- The three shapes of the calls of `SessionClose`. -/
theorem SessionClose_calls_shape {σ : Type} (L2ContainerName : String)
    (f : FactoryApi σ) (s : Session) (w : σ) :
    (∃ e, (SessionClose L2ContainerName f s w).calls = [.GetForSession s (some e)]) ∨
    (∃ de, (SessionClose L2ContainerName f s w).calls
        = [.GetForSession s none, .DisconnectNetwork L2ContainerName s.Id (some de)] ∧
      stringsContains de.Error "is not connected to the network" = false) ∨
    (∃ derr rerr, (SessionClose L2ContainerName f s w).calls
        = [.GetForSession s none, .DisconnectNetwork L2ContainerName s.Id derr,
           .DeleteNetwork s.Id rerr] ∧
      toleratedDisconnect derr = true) := by
  unfold SessionClose
  cases hg : f.GetForSession s w with
  | error e => exact Or.inl ⟨e, rfl⟩
  | ok d =>
    simp only
    rcases hd : d.DisconnectNetwork L2ContainerName s.Id w with ⟨_ | de, w₁⟩
    · simp only
      refine Or.inr (Or.inr ⟨none, ?_⟩)
      rcases hr : d.DeleteNetwork s.Id w₁ with ⟨_ | re, w₂⟩
      · exact ⟨none, by simp [deleteSessionNetwork, hr, toleratedDisconnect]⟩
      · refine ⟨some re, ?_⟩
        by_cases ht : stringsContains re.Error "not found" = true <;>
          simp [deleteSessionNetwork, hr, ht, toleratedDisconnect]
    · simp only
      by_cases hc : stringsContains de.Error "is not connected to the network" = true
      · refine Or.inr (Or.inr ⟨some de, ?_⟩)
        rcases hr : d.DeleteNetwork s.Id w₁ with ⟨_ | re, w₂⟩
        · exact ⟨none, by simp [deleteSessionNetwork, hr, hc, toleratedDisconnect]⟩
        · refine ⟨some re, ?_⟩
          by_cases ht : stringsContains re.Error "not found" = true <;>
            simp [deleteSessionNetwork, hr, hc, ht, toleratedDisconnect]
      · refine Or.inr (Or.inl ⟨de, ?_⟩)
        simp at hc
        simp [hc]

/-- C8: in every run of `SessionClose`, `DeleteNetwork` is called at most once;
a `DeleteNetwork` call is for the session's network and comes after a
`DisconnectNetwork` call for the same network whose reply was nil or the tolerated
"is not connected to the network" error; and after a `DisconnectNetwork` that
fails with another error, or a `GetForSession` that fails, `DeleteNetwork` is not
called at all. -/
theorem SessionClose_delete_after_disconnect {σ : Type} (L2ContainerName : String)
    (f : FactoryApi σ) (s : Session) (w : σ) :
    ((SessionClose L2ContainerName f s w).calls.filter Event.isDeleteNetwork).length ≤ 1 ∧
    (∀ before after id err,
      (SessionClose L2ContainerName f s w).calls
        = before ++ Event.DeleteNetwork id err :: after →
      id = s.Id ∧ ∃ derr, Event.DisconnectNetwork L2ContainerName s.Id derr ∈ before ∧
        toleratedDisconnect derr = true) ∧
    (∀ container network e,
      Event.DisconnectNetwork container network (some e)
        ∈ (SessionClose L2ContainerName f s w).calls →
      stringsContains e.Error "is not connected to the network" = false →
      ∀ ev ∈ (SessionClose L2ContainerName f s w).calls, ev.isDeleteNetwork = false) ∧
    (∀ e, Event.GetForSession s (some e) ∈ (SessionClose L2ContainerName f s w).calls →
      ∀ ev ∈ (SessionClose L2ContainerName f s w).calls, ev.isDeleteNetwork = false) := by
  rcases SessionClose_calls_shape L2ContainerName f s w with
    ⟨e, h⟩ | ⟨de, h, hne⟩ | ⟨derr, rerr, h, htol⟩ <;> rw [h]
  · refine ⟨by simp [Event.isDeleteNetwork], ?_, by simp, by simp [Event.isDeleteNetwork]⟩
    intro before after id err h
    rcases before with _ | ⟨x, _ | ⟨y, rest⟩⟩ <;> simp at h
  · refine ⟨by simp [Event.isDeleteNetwork], ?_, by simp [Event.isDeleteNetwork],
      by simp⟩
    intro before after id err h
    rcases before with _ | ⟨x, _ | ⟨y, _ | ⟨z, rest⟩⟩⟩ <;> simp at h
  · refine ⟨by simp [Event.isDeleteNetwork], ?_, ?_, by simp⟩
    · intro before after id err h
      rcases before with _ | ⟨x, _ | ⟨y, _ | ⟨z, rest⟩⟩⟩ <;> simp at h
      obtain ⟨_, hy, ⟨hid, _⟩, _⟩ := h
      exact ⟨hid.symm, derr, by simp [← hy], htol⟩
    · intro container network e hmem hne
      simp at hmem
      rw [← hmem.2.2] at htol
      simp [toleratedDisconnect, hne] at htol

/-- A substring is found wherever it stands. -/
theorem containsChars_append (a sub b : List Char) :
    containsChars (a ++ sub ++ b) sub = true := by
  induction a with
  | nil =>
    cases hs : sub ++ b with
    | nil =>
      obtain ⟨h₁, h₂⟩ := List.append_eq_nil.mp hs
      simp [containsChars, h₁, h₂]
    | cons c t =>
      simp only [List.nil_append, hs, containsChars, Bool.or_eq_true]
      left
      rw [← hs]
      simp
  | cons c t ih =>
    simp only [List.cons_append, containsChars, Bool.or_eq_true]
    right
    exact ih

/-- The error of `reportNotConnected` is the tolerated "already disconnected"
condition. -/
theorem reportNotConnected_tolerated (container network : String) :
    stringsContains (reportNotConnected container network).Error
      "is not connected to the network" = true := by
  have h := containsChars_append ("container " ++ container ++ " ").data
    "is not connected to the network".data (" " ++ network).data
  simpa [stringsContains, reportNotConnected, String.data_append, List.append_assoc] using h

/-- The error of `DeleteNetwork` on a missing network is the tolerated
"not found" condition. -/
theorem deleteMissing_tolerated (network : String) :
    stringsContains ("network " ++ network ++ " not found") "not found" = true := by
  have h := containsChars_append ("network " ++ network ++ " ").data "not found".data []
  simpa [stringsContains, String.data_append, List.append_assoc] using h

/-- On a daemon where the session's network is gone, `SessionClose` meets the
"already disconnected" and the "not found" conditions and returns nil, leaving
the daemon as it was. -/
theorem SessionClose_network_gone (L2ContainerName : String) (s : Session) (d : Daemon)
    (hgone : d.endpoints s.Id = none) :
    (SessionClose L2ContainerName (daemonFactory reportNotConnected) s d).outcome
        = .returned none ∧
      (SessionClose L2ContainerName (daemonFactory reportNotConnected) s d).calls
        = [.GetForSession s none,
           .DisconnectNetwork L2ContainerName s.Id
             (some (reportNotConnected L2ContainerName s.Id)),
           .DeleteNetwork s.Id (some ⟨"network " ++ s.Id ++ " not found"⟩)] ∧
      (SessionClose L2ContainerName (daemonFactory reportNotConnected) s d).world.endpoints
        s.Id = none := by
  simp [SessionClose, daemonFactory, daemonDocker, hgone, deleteSessionNetwork,
    reportNotConnected_tolerated, deleteMissing_tolerated]

/-- On a daemon where the session's network has no endpoint but the L2
container, `SessionClose` returns nil and the network is gone afterwards. -/
theorem SessionClose_removes_network (L2ContainerName : String) (s : Session) (d : Daemon)
    (honly : ∀ eps, d.endpoints s.Id = some eps → ∀ c ∈ eps, c = L2ContainerName) :
    (SessionClose L2ContainerName (daemonFactory reportNotConnected) s d).outcome
        = .returned none ∧
      (SessionClose L2ContainerName (daemonFactory reportNotConnected) s d).session = s ∧
      (SessionClose L2ContainerName (daemonFactory reportNotConnected) s d).world.endpoints
        s.Id = none := by
  cases he : d.endpoints s.Id with
  | none =>
    have h := SessionClose_network_gone L2ContainerName s d he
    exact ⟨h.1, by simp [SessionClose, daemonFactory, daemonDocker, he, deleteSessionNetwork,
      reportNotConnected_tolerated, deleteMissing_tolerated], h.2.2⟩
  | some eps =>
    have hall := honly eps he
    by_cases hmem : L2ContainerName ∈ eps
    · have hfilter : eps.filter (fun c => c != L2ContainerName) = [] := by
        rw [List.filter_eq_nil_iff]
        intro c hc
        simp [hall c hc]
      simp [SessionClose, daemonFactory, daemonDocker, he, hmem, hfilter,
        deleteSessionNetwork]
    · have hnil : eps = [] := by
        cases eps with
        | nil => rfl
        | cons c t =>
          exact absurd (by simp [hall c (by simp)]) hmem
      subst hnil
      have htol := reportNotConnected_tolerated L2ContainerName s.Id
      simp only [reportNotConnected] at htol
      simp [SessionClose, daemonFactory, daemonDocker, he, deleteSessionNetwork, htol]

/-- C7 (amended): against a runtime that reports a removed network as
"is not connected to the network" from `DisconnectNetwork` and as "not found" from
`DeleteNetwork`, and for a session whose network has no endpoint but the L2
container, two calls of `SessionClose` in sequence both return nil; the second
call receives exactly these two errors and treats them as success. -/
theorem SessionClose_twice_idempotent (L2ContainerName : String) (s : Session)
    (d : Daemon)
    (honly : ∀ eps, d.endpoints s.Id = some eps → ∀ c ∈ eps, c = L2ContainerName) :
    (closeTwice L2ContainerName (daemonFactory reportNotConnected) s d).1.outcome
        = .returned none ∧
      (closeTwice L2ContainerName (daemonFactory reportNotConnected) s d).2.outcome
        = .returned none ∧
      (closeTwice L2ContainerName (daemonFactory reportNotConnected) s d).2.calls
        = [.GetForSession s none,
           .DisconnectNetwork L2ContainerName s.Id
             (some (reportNotConnected L2ContainerName s.Id)),
           .DeleteNetwork s.Id (some ⟨"network " ++ s.Id ++ " not found"⟩)] := by
  obtain ⟨h₁, hs, hw⟩ := SessionClose_removes_network L2ContainerName s d honly
  have h₂ := SessionClose_network_gone L2ContainerName s _ hw
  simp only [closeTwice, hs]
  exact ⟨h₁, h₂.1, h₂.2.1⟩

/-- The test session's network with the L2 container attached: the second
`SessionClose` returns nil. -/
theorem SessionClose_twice_idempotent_witness :
    (closeTwice "l2" (daemonFactory reportNotConnected) testSession testDaemon).2.outcome
      = .returned none :=
  (SessionClose_twice_idempotent "l2" testSession testDaemon (by
    intro eps h c hc
    simp [testDaemon, testSession] at h
    subst h
    simpa using hc)).2.1

/-- C7 (counterexample): against a runtime that reports the removed network as
"not found" from `DisconnectNetwork`, the first `SessionClose` returns nil and
the second one returns that "not found" error, without calling
`DeleteNetwork`. -/
theorem SessionClose_twice_not_found :
    (closeTwice "l2" (daemonFactory reportNotFound) testSession testDaemon).1.outcome
        = .returned none ∧
      (closeTwice "l2" (daemonFactory reportNotFound) testSession testDaemon).2.outcome
        = .returned (some ⟨"network aaaabbbbcccc not found"⟩) ∧
      (closeTwice "l2" (daemonFactory reportNotFound) testSession testDaemon).2.calls
        = [.GetForSession testSession none,
           .DisconnectNetwork "l2" "aaaabbbbcccc"
             (some ⟨"network aaaabbbbcccc not found"⟩)] := by
  decide

/-! ## `NewInstance` -/

/-- For a request whose session `core.SessionGet` finds, `NewInstance` answers
with one status, chosen in this order: 400 when the playground of the session is
not found; otherwise 401 when the requested type is "windows" and the playground
does not allow windows instances; otherwise by the reply of `core.InstanceNew`:
200 with the marshalled instance as body when it succeeds, 409 when its error is
`SessionComplete`, 503 when it is not but is `OutOfCapacity`, and 500 for any
other error. The status is written at most once. -/
theorem NewInstance_status_of_session (h : Handlers) (req : Request) (s : Session)
    (hs : h.core.SessionGet req.sessionId = some s) :
    (h.core.PlaygroundGet s.PlaygroundId = none →
      statusOf (NewInstance h req).rw = 400) ∧
    (∀ p, h.core.PlaygroundGet s.PlaygroundId = some p →
      ((h.jsonDecode req.Body ⟨req.Host, "", "", ""⟩).«Type» = "windows" ∧
          p.AllowWindowsInstances = false →
        statusOf (NewInstance h req).rw = 401) ∧
      (¬((h.jsonDecode req.Body ⟨req.Host, "", "", ""⟩).«Type» = "windows" ∧
          p.AllowWindowsInstances = false) →
        (∀ i, h.core.InstanceNew s
              (h.jsonDecode req.Body ⟨req.Host, "", "", ""⟩) = (i, none) →
          statusOf (NewInstance h req).rw = 200 ∧
            bodyOf (NewInstance h req).rw = h.jsonMarshal i ++ "\n") ∧
        (∀ i e, h.core.InstanceNew s
              (h.jsonDecode req.Body ⟨req.Host, "", "", ""⟩) = (i, some e) →
          (h.SessionComplete e = true → statusOf (NewInstance h req).rw = 409) ∧
          (h.SessionComplete e = false → h.OutOfCapacity e = true →
            statusOf (NewInstance h req).rw = 503) ∧
          (h.SessionComplete e = false → h.OutOfCapacity e = false →
            statusOf (NewInstance h req).rw = 500)))) ∧
    (headersOf (NewInstance h req).rw = [statusOf (NewInstance h req).rw] ∨
      (headersOf (NewInstance h req).rw = [] ∧ statusOf (NewInstance h req).rw = 200)) ∧
    statusSent (NewInstance h req) = some (statusOf (NewInstance h req).rw) := by
  unfold statusSent NewInstance
  cases hp : h.core.PlaygroundGet s.PlaygroundId with
  | none => simp [hs, hp, statusOf, headersOf, StatusBadRequest]
  | some p =>
    by_cases hw : (h.jsonDecode req.Body ⟨req.Host, "", "", ""⟩).«Type» = "windows" ∧
        p.AllowWindowsInstances = false
    · simp [hs, hp, hw, statusOf, headersOf, StatusUnauthorized]
    · have hw' : (h.jsonDecode req.Body ⟨req.Host, "", "", ""⟩).«Type» = "windows" →
          p.AllowWindowsInstances = true := by
        intro h₁
        by_contra h₂
        exact hw ⟨h₁, by simpa using h₂⟩
      rcases hn : h.core.InstanceNew s
          (h.jsonDecode req.Body ⟨req.Host, "", "", ""⟩) with ⟨i, _ | e⟩
      · simp [hs, hp, hw, hw', hn, statusOf, headersOf, bodyOf, StatusOK]
        exact hw'
      · by_cases hsc : h.SessionComplete e = true
        · simp [hs, hp, hw, hw', hn, hsc, statusOf, headersOf, StatusConflict]
          exact hw'
        · by_cases hc : h.OutOfCapacity e = true
          · simp [hs, hp, hw, hw', hn, hsc, hc, statusOf, headersOf,
              StatusServiceUnavailable]
            exact hw'
          · simp [hs, hp, hw, hw', hn, hsc, hc, statusOf, headersOf,
              StatusInternalServerError]
            exact hw'

/-- Whenever `core.SessionGet` replies with the nil session, `NewInstance` panics
on `s.PlaygroundId`: it writes nothing, calls nothing else on the core, and the
client receives no status. -/
theorem NewInstance_nil_session (h : Handlers) (req : Request)
    (hs : h.core.SessionGet req.sessionId = none) :
    (NewInstance h req).panicked = true ∧ (NewInstance h req).rw = [] ∧
      (NewInstance h req).calls = [.SessionGet req.sessionId none] ∧
      statusSent (NewInstance h req) = none := by
  simp [statusSent, NewInstance, hs]

/-- C1: on a request for a session id the core does not know, `core.SessionGet`
replies nil and `NewInstance` answers with no status at all: it panics on
`s.PlaygroundId` before any call on the response writer, and neither
`PlaygroundGet` nor `InstanceNew` is reached. -/
theorem NewInstance_unknown_session_no_status :
    (NewInstance (mockHandlers true (some testInstance, none))
        unknownSessionRequest).panicked = true ∧
      (NewInstance (mockHandlers true (some testInstance, none))
        unknownSessionRequest).rw = [] ∧
      statusSent (NewInstance (mockHandlers true (some testInstance, none))
        unknownSessionRequest) = none ∧
      (NewInstance (mockHandlers true (some testInstance, none))
        unknownSessionRequest).calls = [.SessionGet "ffffffffffff" none] := by
  decide

/-- C2: for a request of type "windows" on a session whose playground exists and
has `AllowWindowsInstances` false, `NewInstance` answers 401 and its only calls on
the core are `SessionGet` and `PlaygroundGet`: `InstanceNew` is not invoked. -/
theorem NewInstance_windows_denied (h : Handlers) (req : Request) (s : Session)
    (p : Playground)
    (hs : h.core.SessionGet req.sessionId = some s)
    (hp : h.core.PlaygroundGet s.PlaygroundId = some p)
    (hw : (h.jsonDecode req.Body ⟨req.Host, "", "", ""⟩).«Type» = "windows")
    (ha : p.AllowWindowsInstances = false) :
    statusOf (NewInstance h req).rw = 401 ∧
      (NewInstance h req).rw = [.WriteHeader 401] ∧
      (∀ s' conf i err, CoreCall.InstanceNew s' conf i err ∉ (NewInstance h req).calls) ∧
      (NewInstance h req).calls
        = [.SessionGet req.sessionId (some s), .PlaygroundGet s.PlaygroundId (some p)] ∧
      statusSent (NewInstance h req) = some 401 := by
  simp [statusSent, NewInstance, hs, hp, hw, ha, statusOf, StatusUnauthorized]

/-- A windows request on a playground without windows instances: 401. -/
theorem NewInstance_windows_denied_witness :
    statusOf (NewInstance (mockHandlers false (some testInstance, none))
      (testRequest "windows")).rw = 401 :=
  (NewInstance_windows_denied (mockHandlers false (some testInstance, none))
    (testRequest "windows") testSession (testPlayground false) (by decide) (by decide)
    (by decide) (by decide)).1

/-- C9 (amended): when `core.InstanceNew` is called and fails with an error that
is `OutOfCapacity` and not `SessionComplete`, `NewInstance` answers 503 and the
body it writes is the JSON text with a space after the colon, followed by a line
feed. -/
theorem NewInstance_out_of_capacity_body (h : Handlers) (req : Request) (s : Session)
    (conf : InstanceConfig) (i : Option Instance) (e : GoError)
    (hcall : CoreCall.InstanceNew s conf i (some e) ∈ (NewInstance h req).calls)
    (hcap : h.OutOfCapacity e = true) (hsc : h.SessionComplete e = false) :
    statusOf (NewInstance h req).rw = 503 ∧
      bodyOf (NewInstance h req).rw = "\x7b\"error\": \"out_of_capacity\"\x7d\n" := by
  unfold NewInstance at *
  cases hs : h.core.SessionGet req.sessionId with
  | none => simp [hs] at hcall
  | some s₀ =>
    cases hp : h.core.PlaygroundGet s₀.PlaygroundId with
    | none => simp [hs, hp] at hcall
    | some p =>
      by_cases hw : (h.jsonDecode req.Body ⟨req.Host, "", "", ""⟩).«Type» = "windows" ∧
          p.AllowWindowsInstances = false
      · simp [hs, hp, hw] at hcall
      · have hw' : (h.jsonDecode req.Body ⟨req.Host, "", "", ""⟩).«Type» = "windows" →
            p.AllowWindowsInstances = true := by
          intro h₁
          by_contra h₂
          exact hw ⟨h₁, by simpa using h₂⟩
        rcases hn : h.core.InstanceNew s₀
            (h.jsonDecode req.Body ⟨req.Host, "", "", ""⟩) with ⟨i', _ | e'⟩
        · simp [hs, hp, hw, hw', hn] at hcall
        · have he : e = e' := by
            by_cases hs' : h.SessionComplete e' = true
            · simp [hs, hp, hw, hw', hn, hs'] at hcall
              exact hcall.2.2.2
            · by_cases hc : h.OutOfCapacity e' = true
              · simp [hs, hp, hw, hw', hn, hs', hc] at hcall
                exact hcall.2.2.2
              · simp [hs, hp, hw, hw', hn, hs', hc] at hcall
                exact hcall.2.2.2
          subst he
          simp [hs, hp, hw, hw', hn, hsc, hcap, statusOf, bodyOf, StatusServiceUnavailable]

/-- An `InstanceNew` that is out of capacity: 503. -/
theorem NewInstance_out_of_capacity_body_witness :
    statusOf (NewInstance (mockHandlers true (none, some ⟨"OutOfCapacity"⟩))
      (testRequest "")).rw = 503 :=
  (NewInstance_out_of_capacity_body (mockHandlers true (none, some ⟨"OutOfCapacity"⟩))
    (testRequest "") testSession ⟨"something.play-with-docker.com", "", "", ""⟩ none
    ⟨"OutOfCapacity"⟩ (by decide) (by decide) (by decide)).1

/-- C9 (counterexample): it is not so that every request on which
`core.InstanceNew` fails with an error that is `OutOfCapacity` and not
`SessionComplete` gets the body without the space and the line feed: the body
written differs from that text. -/
theorem NewInstance_out_of_capacity_body_differs :
    ¬ ∀ (h : Handlers) (req : Request) (s : Session) (conf : InstanceConfig)
        (i : Option Instance) (e : GoError),
      CoreCall.InstanceNew s conf i (some e) ∈ (NewInstance h req).calls →
      h.OutOfCapacity e = true → h.SessionComplete e = false →
      statusOf (NewInstance h req).rw = 503 ∧
        bodyOf (NewInstance h req).rw = "\x7b\"error\":\"out_of_capacity\"\x7d" := by
  intro hall
  have h := hall (mockHandlers true (none, some ⟨"OutOfCapacity"⟩)) (testRequest "")
    testSession ⟨"something.play-with-docker.com", "", "", ""⟩ none ⟨"OutOfCapacity"⟩
    (by decide) (by decide) (by decide)
  exact absurd h.2 (by decide)

end Libplayground
